import Mathlib

/-!
Verification of the scoring-service repository (api.py, store.py,
scoring/service.py) against its natural-language specification.

The Python code is shallowly embedded: JSON-ish request values become the
inductive `PyVal`; each declarative field descriptor's `validate` method
becomes a function `PyVal → Except String Unit`; `BaseRequest.validate`
becomes `validateFields`; `check_auth` and `method_handler` become pure
functions threading an abstract store state; `store.py`'s `Store` becomes an
explicit state machine whose remote attempts are an oracle `Nat → Attempt`;
`scoring/service.py`'s `get_score`/`get_interests` are embedded over a
duck-typed store interface, exactly as the Python is duck-typed.

Numbers arriving in JSON are modelled as integers and strings (the schemas
under verification only distinguish strings, ints, lists and dicts).
Hash functions (sha512/md5 hexdigests) are abstracted as parameters of type
`String → String`; every theorem quantifies over them, so nothing depends on
properties of the concrete hash.
-/

/-- A Python/JSON value as seen by the request validator: `none` stands both
for JSON `null` and for an absent key (Python's `dict.get` collapses the
two), plus strings, integers, lists and string-keyed dicts. -/
inductive PyVal where
  | none : PyVal
  | str : String → PyVal
  | int : Int → PyVal
  | list : List PyVal → PyVal
  | dict : List (String × PyVal) → PyVal
deriving Repr

def PyVal.isNone : PyVal → Bool
  | .none => true
  | _ => false

def PyVal.isStr : PyVal → Bool
  | .str _ => true
  | _ => false

def PyVal.isInt : PyVal → Bool
  | .int _ => true
  | _ => false

/-- Python `x == "lit"` where `x` may be any value: true only when `x` is the
string in question (Python equality between a non-str and a str is False). -/
def PyVal.eqStr : PyVal → String → Bool
  | .str s, t => s == t
  | _, _ => false

/-- Python `data.get(name)`: first binding in the association list, `None`
when the key is absent. -/
def dictGet (d : List (String × PyVal)) (k : String) : PyVal :=
  match d.lookup k with
  | some v => v
  | Option.none => PyVal.none

/-! ## Dates (`datetime.strptime(value, "%d.%m.%Y")` and date arithmetic) -/

structure Date where
  year : Int
  month : Nat
  day : Nat
deriving Repr, DecidableEq

def isLeap (y : Int) : Bool :=
  (y % 4 == 0 && y % 100 != 0) || (y % 400 == 0)

def daysInMonth (y : Int) (m : Nat) : Nat :=
  if m == 2 then (if isLeap y then 29 else 28)
  else if m == 4 || m == 6 || m == 9 || m == 11 then 30
  else 31

def digitsVal (cs : List Char) : Nat :=
  cs.foldl (fun a c => a * 10 + (c.toNat - 48)) 0

/-- Split a character list on a separator (the view of Python's `split`
used by the date parser). -/
def splitOnChar (sep : Char) : List Char → List Char → List (List Char)
  | [], cur => [cur.reverse]
  | c :: cs, cur =>
    if c == sep then cur.reverse :: splitOnChar sep cs []
    else splitOnChar sep cs (c :: cur)

/-- CPython's `strptime` with format `"%d.%m.%Y"` followed by the `date`
constructor's range check: day is 1-2 digits in 1..31, month 1-2 digits in
1..12, year exactly 4 digits, separated by literal dots with nothing left
over, and the day must exist in the given month/year. -/
def parseDateDMY (s : String) : Option Date :=
  match splitOnChar '.' s.data [] with
  | [ds, ms, ys] =>
    if ds.length ≥ 1 && ds.length ≤ 2 && ds.all Char.isDigit
        && ms.length ≥ 1 && ms.length ≤ 2 && ms.all Char.isDigit
        && ys.length == 4 && ys.all Char.isDigit then
      let d := digitsVal ds
      let m := digitsVal ms
      let y : Int := Int.ofNat (digitsVal ys)
      if 1 ≤ d && 1 ≤ m && m ≤ 12 && 1 ≤ digitsVal ys && d ≤ daysInMonth y m then
        some ⟨y, m, d⟩
      else Option.none
    else Option.none
  | _ => Option.none

/-- Days-since-era count for a civil date (standard civil-calendar formula);
only differences of this function are ever used, matching Python's
`(date_a - date_b).days`. -/
def daysFromCivil (dt : Date) : Int :=
  let y : Int := if dt.month ≤ 2 then dt.year - 1 else dt.year
  let era : Int := (if y ≥ 0 then y else y - 399) / 400
  let yoe : Int := y - era * 400
  let mp : Int := (Int.ofNat dt.month + 9) % 12
  let doy : Int := (153 * mp + 2) / 5 + Int.ofNat dt.day - 1
  let doe : Int := yoe * 365 + yoe / 4 - yoe / 100 + doy
  era * 146097 + doe

/-! ## Field descriptors (api.py `Field` hierarchy)

Each `validate` method is a function `PyVal → Except String Unit`; raising
`ValidationError(msg)` becomes `.error msg`. -/

/-- `Field.validate`: `None` fails when required, otherwise passes. -/
def fieldValidate (required : Bool) (v : PyVal) : Except String Unit :=
  if v.isNone then
    if required then .error "field is required" else .ok ()
  else .ok ()

/-- `CharField.validate`. -/
def charFieldValidate (required : Bool) (v : PyVal) : Except String Unit :=
  match fieldValidate required v with
  | .error e => .error e
  | .ok _ =>
    if v.isNone then .ok ()
    else if v.isStr then .ok ()
    else .error "value must be a string"

/-- `EmailField.validate` (extends `CharField`). -/
def emailFieldValidate (required : Bool) (v : PyVal) : Except String Unit :=
  match charFieldValidate required v with
  | .error e => .error e
  | .ok _ =>
    match v with
    | .str s => if s.data.contains '@' then .ok () else .error "invalid email"
    | _ => .ok ()

def phoneShapeOk (s : String) : Bool :=
  s.length == 11 &&
    (match s.data with
     | c :: _ => c == '7'
     | [] => false)

/-- `PhoneField.validate`: a string or an int (normalised to its decimal
string); exactly 11 characters starting with `7`. -/
def phoneFieldValidate (required : Bool) (v : PyVal) : Except String Unit :=
  match fieldValidate required v with
  | .error e => .error e
  | .ok _ =>
    match v with
    | .none => .ok ()
    | .str s => if phoneShapeOk s then .ok () else .error "invalid phone"
    | .int n => if phoneShapeOk (toString n) then .ok () else .error "invalid phone"
    | _ => .error "phone must be string or int"

/-- `DateField.validate`. -/
def dateFieldValidate (required : Bool) (v : PyVal) : Except String Unit :=
  match fieldValidate required v with
  | .error e => .error e
  | .ok _ =>
    match v with
    | .none => .ok ()
    | .str s =>
      match parseDateDMY s with
      | some _ => .ok ()
      | Option.none => .error "invalid date format"
    | _ => .error "date must be string"

/-- `BirthDayField.validate` (extends `DateField`): additionally the age
`(today - birthday).days // 365` must not exceed 70; `today` is the
wall-clock date, a parameter of the embedding. -/
def birthDayFieldValidate (today : Date) (required : Bool) (v : PyVal) :
    Except String Unit :=
  match dateFieldValidate required v with
  | .error e => .error e
  | .ok _ =>
    match v with
    | .str s =>
      match parseDateDMY s with
      | some d =>
        if (daysFromCivil today - daysFromCivil d).fdiv 365 > 70 then
          .error "invalid birthday"
        else .ok ()
      | Option.none => .error "invalid birthday format"
    | _ => .ok ()

/-- `GenderField.validate`: an int in {0, 1, 2}. -/
def genderFieldValidate (required : Bool) (v : PyVal) : Except String Unit :=
  match fieldValidate required v with
  | .error e => .error e
  | .ok _ =>
    match v with
    | .none => .ok ()
    | .int n => if n == 0 || n == 1 || n == 2 then .ok () else .error "invalid gender"
    | _ => .error "gender must be int"

/-- `ClientIDsField.validate`: a non-empty list whose elements are all ints.
Note the source has no `None` short-circuit after the base check. -/
def clientIdsFieldValidate (required : Bool) (v : PyVal) : Except String Unit :=
  match fieldValidate required v with
  | .error e => .error e
  | .ok _ =>
    match v with
    | .list xs =>
      if xs.isEmpty then .error "client_ids must be non-empty list"
      else if xs.all PyVal.isInt then .ok ()
      else .error "client_ids must contain ints"
    | _ => .error "client_ids must be non-empty list"

/-! ## Request schemas and `BaseRequest.validate` -/

/-- One field of a request schema: its name and its validation rule, the
embedding of one descriptor attached to a `BaseRequest` subclass. -/
structure FieldSpec where
  name : String
  rule : PyVal → Except String Unit

/-- The loop body of `BaseRequest.validate`: run every field's rule on
`data.get(name)`, appending `(name, message)` for each failure, never
stopping early. -/
def validateGo (data : List (String × PyVal)) :
    List FieldSpec → List (String × String) → List (String × String)
  | [], acc => acc
  | fs :: rest, acc =>
    match fs.rule (dictGet data fs.name) with
    | .ok _ => validateGo data rest acc
    | .error m => validateGo data rest (acc ++ [(fs.name, m)])

/-- The error mapping accumulated by `BaseRequest.validate`. -/
def validateFields (fields : List FieldSpec) (data : List (String × PyVal)) :
    List (String × String) :=
  validateGo data fields []

/-- `BaseRequest.validate`'s boolean result: `not self.errors`. -/
def requestValidate (fields : List FieldSpec) (data : List (String × PyVal)) : Bool :=
  (validateFields fields data).isEmpty

/-- `MethodRequest`'s schema, in class-body (= `__dict__`) order. -/
def methodRequestFields : List FieldSpec :=
  [⟨"account", charFieldValidate false⟩,
   ⟨"login", charFieldValidate true⟩,
   ⟨"token", charFieldValidate true⟩,
   ⟨"arguments", fieldValidate true⟩,
   ⟨"method", charFieldValidate true⟩]

/-- `OnlineScoreRequest`'s schema. -/
def onlineScoreFields (today : Date) : List FieldSpec :=
  [⟨"first_name", charFieldValidate false⟩,
   ⟨"last_name", charFieldValidate false⟩,
   ⟨"email", emailFieldValidate false⟩,
   ⟨"phone", phoneFieldValidate false⟩,
   ⟨"birthday", birthDayFieldValidate today false⟩,
   ⟨"gender", genderFieldValidate false⟩]

/-- `ClientsInterestsRequest`'s schema. -/
def clientsInterestsFields : List FieldSpec :=
  [⟨"client_ids", clientIdsFieldValidate true⟩,
   ⟨"date", dateFieldValidate false⟩]

/-! ## Authentication (api.py `check_auth`) -/

def SALT : String := "Otus"
def ADMIN_LOGIN : String := "admin"
def ADMIN_SALT : String := "42"

def OK : Nat := 200
def FORBIDDEN : Nat := 403
def INVALID_REQUEST : Nat := 422

/-- `MethodRequest.is_admin`: the login equals the fixed admin login. -/
def is_admin (login : PyVal) : Bool :=
  login.eqStr ADMIN_LOGIN

/-- Python `request.account or ""`: `None` and the empty string both give
`""`; any other validated account (a string) gives itself. -/
def accountOrEmpty : PyVal → String
  | .str s => s
  | _ => ""

/-- The login as a string; `check_auth` is only reached after validation has
established the login is a string. -/
def loginStr : PyVal → String
  | .str s => s
  | _ => ""

/-- `check_auth`, with the sha512-hexdigest abstracted as `sha512hex` and
the current hour `datetime.now().strftime("%Y%m%d%H")` as `nowYmdH`. -/
def check_auth (sha512hex : String → String) (nowYmdH : String)
    (account login token : PyVal) : Bool :=
  let digest :=
    if is_admin login then
      sha512hex (nowYmdH ++ ADMIN_SALT)
    else
      sha512hex (accountOrEmpty account ++ loginStr login ++ SALT)
  token.eqStr digest

/-! ## Method dispatcher (api.py `method_handler`)

The handler is parametric in the scoring and interests functions it invokes:
`api.py` line 17 imports them from `scoring.core`, a module that is not part
of the sources, so the dispatcher is embedded over any scoring function
threading an abstract store state `σ` (the per-claim theorems quantify over
it or instantiate it with the embeddings of `scoring/service.py`).
A raised exception escaping the handler is `.error`; a normal
`(payload, code)` return is `.ok`. The diagnostic `ctx` side channel
(`has` / `nclients`) is not modelled (no claim mentions it). -/

/-- A response payload: `{"score": v}`, the interests mapping, a per-field
error mapping, `{"error": msg}`, or a bare message string. -/
inductive Resp where
  | score : Rat → Resp
  | interestsMap : List (String × List String) → Resp
  | errMap : List (String × String) → Resp
  | errObj : String → Resp
  | msg : String → Resp
deriving Repr, DecidableEq

/-- `filled(a) and filled(b)` for one cross-field pair. -/
def pairFilled (a b : PyVal) : Bool :=
  !a.isNone && !b.isNone

/-- The dict comprehension
`{str(cid): get_interests(cid) for cid in client_ids}`: threads the store
state left-to-right; an interests lookup returning `Option.none` models a
raised exception, which aborts the comprehension and propagates. -/
def runInterests (σ : Type) (interestsFn : σ → Int → Option (List String) × σ)
    (st : σ) : List PyVal → Except String (List (String × List String)) × σ
  | [] => (.ok [], st)
  | v :: rest =>
    match v with
    | .int n =>
      match interestsFn st n with
      | (some is, st') =>
        match runInterests σ interestsFn st' rest with
        | (.ok tail, st'') => (.ok ((toString n, is) :: tail), st'')
        | (.error e, st'') => (.error e, st'')
      | (Option.none, st') => (.error "ValueError: invalid interests payload", st')
    | _ => (.error "TypeError", st)

/-- `method_handler(request, ctx)`: envelope check, outer-schema validation,
authentication, dispatch on the method name with inner-schema validation,
the `online_score` cross-field pair rule and admin short-circuit, and the
`clients_interests` store loop. -/
def method_handler (σ : Type)
    (scoreFn : σ → PyVal → PyVal → PyVal → PyVal → PyVal → PyVal → Rat × σ)
    (interestsFn : σ → Int → Option (List String) × σ)
    (sha512hex : String → String) (nowYmdH : String) (today : Date)
    (request : PyVal) (st : σ) : Except String (Resp × Nat) × σ :=
  match request with
  | .dict req =>
    match dictGet req "body" with
    | .dict body =>
      let errs := validateFields methodRequestFields body
      if errs.isEmpty then
        let account := dictGet body "account"
        let login := dictGet body "login"
        let token := dictGet body "token"
        if check_auth sha512hex nowYmdH account login token then
          let method := dictGet body "method"
          if method.eqStr "online_score" then
            match dictGet body "arguments" with
            | .dict args =>
              let errs2 := validateFields (onlineScoreFields today) args
              if errs2.isEmpty then
                let phone := dictGet args "phone"
                let email := dictGet args "email"
                let first_name := dictGet args "first_name"
                let last_name := dictGet args "last_name"
                let gender := dictGet args "gender"
                let birthday := dictGet args "birthday"
                if pairFilled phone email || pairFilled first_name last_name
                    || pairFilled gender birthday then
                  if is_admin login then
                    (.ok (.score 42, OK), st)
                  else
                    let r := scoreFn st phone email birthday gender first_name last_name
                    (.ok (.score r.1, OK), r.2)
                else (.ok (.errObj "Invalid arguments", INVALID_REQUEST), st)
              else (.ok (.errMap errs2, INVALID_REQUEST), st)
            | _ => (.ok (.errObj "Invalid arguments", INVALID_REQUEST), st)
          else if method.eqStr "clients_interests" then
            match dictGet body "arguments" with
            | .dict args =>
              let errs2 := validateFields clientsInterestsFields args
              if errs2.isEmpty then
                match dictGet args "client_ids" with
                | .list xs =>
                  match runInterests σ interestsFn st xs with
                  | (.ok pairs, st') => (.ok (.interestsMap pairs, OK), st')
                  | (.error e, st') => (.error e, st')
                | _ => (.error "TypeError: client_ids is not iterable", st)
              else (.ok (.errMap errs2, INVALID_REQUEST), st)
            | _ => (.ok (.errObj "Invalid arguments", INVALID_REQUEST), st)
          else (.ok (.errObj "Invalid request", INVALID_REQUEST), st)
        else (.ok (.msg "Forbidden", FORBIDDEN), st)
      else (.ok (.errMap errs, INVALID_REQUEST), st)
    | _ => (.ok (.errObj "Invalid request", INVALID_REQUEST), st)
  | _ => (.ok (.errObj "Invalid request", INVALID_REQUEST), st)

/-! ## Store client (store.py)

The remote side is an oracle `env : Nat → Attempt` giving the outcome of the
i-th attempt of one `_execute` call: the redis call returns a value, raises
one of the caught transport errors (`ConnectionError`, `TimeoutError`,
`RedisError`), or raises some other exception. Constructing the lazy
`redis.Redis` handle in `_connect` itself never raises (redis-py connects on
first command, which is part of the attempt outcome). -/

/-- One attempt's outcome for the wrapped redis call. -/
inductive Attempt where
  | ok : Option String → Attempt
  | transport : Attempt
  | other : String → Attempt
deriving Repr, DecidableEq

/-- A Python exception escaping (or caught inside) the store code. -/
inductive PyExc where
  | attributeError : PyExc
  | transportError : PyExc
  | runtimeErrorNoActive : PyExc
  | other : String → PyExc
deriving Repr, DecidableEq

/-- The opaque `redis.Redis` handle created by `_connect`. -/
inductive RedisClient where
  | mk : RedisClient
deriving Repr, DecidableEq

/-- `Store.__init__`'s state: configuration plus the lazy `_client`. -/
structure Store where
  host : String
  port : Nat
  db : Nat
  retries : Nat
  timeout : Nat
  client : Option RedisClient
deriving Repr, DecidableEq

/-- `Store()` with the constructor defaults. -/
def Store.init : Store :=
  ⟨"localhost", 6379, 0, 3, 1, Option.none⟩

deriving instance DecidableEq for Except

/-- What one `_execute` call did: its result (`.error` = exception raised to
the caller), how many attempts ran, how many `time.sleep(0.1)` calls ran,
how many fresh `redis.Redis` handles `_connect` created, and the `_client`
slot afterwards. -/
structure ExecOut where
  result : Except PyExc (Option String)
  attempts : Nat
  sleeps : Nat
  connects : Nat
  client : Option RedisClient
deriving Repr, DecidableEq

/-- `_connect`: create a handle only when `_client is None`; also reports
whether a handle was created. -/
def connectIfNone : Option RedisClient → Option RedisClient × Nat
  | Option.none => (some RedisClient.mk, 1)
  | some c => (some c, 0)

/-- The `for attempt in range(self.retries)` loop of `_execute`: on a caught
transport error the handle is dropped, `time.sleep(0.1)` runs and the loop
continues; any other exception propagates at once; when the loop falls
through, the bare `raise` on store.py line 45 executes outside any active
`except` block, which in Python raises
`RuntimeError("No active exception to re-raise")` — not the transport error. -/
def executeLoop (env : Nat → Attempt) :
    Nat → Nat → Option RedisClient → Nat → Nat → ExecOut
  | i, 0, client, sleeps, connects =>
    ⟨.error .runtimeErrorNoActive, i, sleeps, connects, client⟩
  | i, fuel + 1, client, sleeps, connects =>
    let c := connectIfNone client
    match env i with
    | .ok v => ⟨.ok v, i + 1, sleeps, connects + c.2, c.1⟩
    | .transport => executeLoop env (i + 1) fuel Option.none (sleeps + 1) (connects + c.2)
    | .other e => ⟨.error (.other e), i + 1, sleeps, connects + c.2, c.1⟩

/-- `Store._execute(func, *args)` once `func` has been evaluated. -/
def Store.execute (s : Store) (env : Nat → Attempt) : ExecOut :=
  executeLoop env 0 s.retries s.client 0 0

/-- The shared shape of all three public operations: the argument expression
`self._client.get` (or `.setex`) is evaluated first, raising
`AttributeError` while `_client` is `None` — before `_execute` (and hence
`_connect`) can run; otherwise `_execute` runs. -/
def Store.rawOp (s : Store) (env : Nat → Attempt) : ExecOut :=
  match s.client with
  | Option.none => ⟨.error .attributeError, 0, 0, 0, Option.none⟩
  | some _ => s.execute env

/-- `Store.cache_get`: any exception is swallowed into `None`. The `key`
argument only feeds the remote call, whose behaviour the oracle carries. -/
def Store.cache_get (s : Store) (env : Nat → Attempt) (key : String) :
    Option String × ExecOut :=
  let out := s.rawOp env
  (match out.result with
   | .ok v => v
   | .error _ => Option.none, out)

/-- `Store.cache_set`: any exception is swallowed; the call always returns
normally (`.ok ()`). -/
def Store.cache_set (s : Store) (env : Nat → Attempt) (key value : String)
    (timeout : Nat) : Except PyExc Unit × ExecOut :=
  let out := s.rawOp env
  (.ok (), out)

/-- `Store.get`: no exception handling — the raw result, errors included. -/
def Store.get (s : Store) (env : Nat → Attempt) (key : String) :
    Except PyExc (Option String) × ExecOut :=
  let out := s.rawOp env
  (out.result, out)

/-! ## Scoring (scoring/service.py)

`get_score` and `get_interests` are duck-typed over whatever store object
they are handed (the repository's own integration tests use a `FakeStore`),
so they are embedded over an explicit interface `StoreOps σ`. Cache values
are the Python floats themselves (exact halves, embedded as `Rat`;
`float(score)` on a cached float is the identity). -/

/-- The duck-typed store interface consumed by `get_score`. -/
structure StoreOps (σ : Type) where
  cacheGetOp : σ → String → Option Rat × σ
  cacheSetOp : σ → String → Rat → Nat → σ

/-- `strftime("%Y%m%d")` for the validated dates of this system (4-digit
years), zero-padded fields. -/
def dateYmd (d : Date) : String :=
  let pad := fun (w : Nat) (n : Nat) =>
    let s := toString n
    String.mk (List.replicate (w - s.length) '0') ++ s
  pad 4 d.year.toNat ++ pad 2 d.month ++ pad 2 d.day

/-- Python truthiness of an optional string (`if phone:`): present and
non-empty. -/
def strTruthy : Option String → Bool
  | some s => !(s == "")
  | Option.none => false

/-- `birthday.strftime("%Y%m%d") if birthday else ""`. -/
def birthdayYmd : Option Date → String
  | some d => dateYmd d
  | Option.none => ""

/-- The cache key of `get_score`:
`"uid:" + md5(first_name + last_name + phone + birthday.strftime("%Y%m%d")).hexdigest()`,
each absent component defaulting to the empty string. -/
def scoreKey (md5hex : String → String) (phone first_name last_name : Option String)
    (birthday : Option Date) : String :=
  "uid:" ++ md5hex ((first_name.getD "") ++ (last_name.getD "") ++ (phone.getD "")
    ++ birthdayYmd birthday)

/-- `get_score(store, phone, email, birthday, gender, first_name, last_name)`:
cache hit returns the cached value; otherwise accumulate 1.5 for a truthy
phone, 1.5 for a truthy email, 1.5 for a birthday together with a non-None
gender, 0.5 for truthy first and last names, cache the sum for 60*60
seconds, and return it. -/
def get_score (σ : Type) (ops : StoreOps σ) (md5hex : String → String) (st : σ)
    (phone email : Option String) (birthday : Option Date) (gender : Option Int)
    (first_name last_name : Option String) : Rat × σ :=
  let key := scoreKey md5hex phone first_name last_name birthday
  match ops.cacheGetOp st key with
  | (some v, st') => (v, st')
  | (Option.none, st') =>
    let score : Rat :=
      (((0 + (if strTruthy phone then 1.5 else 0))
        + (if strTruthy email then 1.5 else 0))
        + (if birthday.isSome && gender.isSome then 1.5 else 0))
        + (if strTruthy first_name && strTruthy last_name then 0.5 else 0)
    (score, ops.cacheSetOp st' key score (60 * 60))

/-! ### `json.loads` restricted to arrays of strings

The interests values are JSON-encoded lists of strings; this parser models
`json.loads` on exactly that fragment (whitespace, string escapes for the
common single-character escapes), returning `Option.none` — a raised
`JSONDecodeError` — elsewhere. -/

def isJsonWs (c : Char) : Bool :=
  c == ' ' || c == '\n' || c == '\t' || c == '\r'

def skipWs : List Char → List Char
  | [] => []
  | c :: cs => if isJsonWs c then skipWs cs else c :: cs

/-- Parse the body of a JSON string after its opening quote; returns the
string and the rest of the input. -/
def parseStrBody : List Char → String → Option (String × List Char)
  | [], _ => Option.none
  | c :: cs, acc =>
    if c == '"' then some (acc, cs)
    else if c == '\\' then
      match cs with
      | [] => Option.none
      | d :: ds =>
        if d == '"' then parseStrBody ds (acc.push '"')
        else if d == '\\' then parseStrBody ds (acc.push '\\')
        else if d == '/' then parseStrBody ds (acc.push '/')
        else if d == 'n' then parseStrBody ds (acc.push '\n')
        else if d == 't' then parseStrBody ds (acc.push '\t')
        else if d == 'r' then parseStrBody ds (acc.push '\r')
        else Option.none
    else parseStrBody cs (acc.push c)

/-- Parse the items of a non-empty JSON array of strings (after `[`). -/
def parseListRest : Nat → List Char → List String → Option (List String)
  | 0, _, _ => Option.none
  | fuel + 1, cs, acc =>
    match skipWs cs with
    | '"' :: rest =>
      match parseStrBody rest "" with
      | some (s, rest2) =>
        match skipWs rest2 with
        | ',' :: r4 => parseListRest fuel r4 (acc ++ [s])
        | ']' :: r4 => if (skipWs r4).isEmpty then some (acc ++ [s]) else Option.none
        | _ => Option.none
      | Option.none => Option.none
    | _ => Option.none

/-- `json.loads` on a JSON array of strings. -/
def jsonLoadsStrList (s : String) : Option (List String) :=
  match skipWs s.data with
  | '[' :: rest =>
    match skipWs rest with
    | ']' :: r2 => if (skipWs r2).isEmpty then some [] else Option.none
    | _ => parseListRest (rest.length + 1) rest []
  | _ => Option.none

/-- `get_interests(store, cid)`: read `f"i:{cid}"` from the store (the store
argument is its plain-get as a function), return `[]` for an absent or empty
value, otherwise `json.loads` it; `Option.none` models a raised decode
error. -/
def get_interests (storeGet : String → Option String) (cid : Int) :
    Option (List String) :=
  match storeGet ("i:" ++ toString cid) with
  | Option.none => some []
  | some r => if r == "" then some [] else jsonLoadsStrList r

/-! ## A persisting, instrumented model store for the scoring claims

The idempotence claim speaks of "a store that persists the cache write" and
counts store queries; this is the repository's own `FakeStore` test double
(tests/integration) with query/write counters added so the counting clauses
are expressible. -/

structure CountStore where
  entries : List (String × Rat)
  gets : Nat
  sets : Nat
deriving Repr, DecidableEq

/-- Python dict-style lookup in the model store. -/
def assocLookup : List (String × Rat) → String → Option Rat
  | [], _ => Option.none
  | (k, v) :: rest, key => if k == key then some v else assocLookup rest key

/-- `FakeStore.cache_get` / `cache_set` with counters: a get counts one
query; a set counts one write and persists the value. -/
def countOps : StoreOps CountStore :=
  ⟨fun st k => (assocLookup st.entries k, ⟨st.entries, st.gets + 1, st.sets⟩),
   fun st k v _ => ⟨(k, v) :: st.entries, st.gets, st.sets + 1⟩⟩

/-! ## Fixtures for the concrete round-trip scenario

The store of the round-trip scenario: key `i:42` holds the JSON-encoded
list `["cars","music"]`, key `i:404` is absent. The dispatcher is run with
`scoring/service.py`'s `get_interests` over this store; the scoring function
is irrelevant to the scenario and instantiated trivially. -/

def roundTripStore : String → Option String :=
  fun k => if k == "i:42" then some "[\"cars\",\"music\"]" else Option.none

def roundTripInterestsFn : Unit → Int → Option (List String) × Unit :=
  fun _ cid => (get_interests roundTripStore cid, ())

def trivialScoreFn : Unit → PyVal → PyVal → PyVal → PyVal → PyVal → PyVal → Rat × Unit :=
  fun _ _ _ _ _ _ _ => (0, ())

/-! ## Helper lemmas -/

/-- The error entry one field contributes. -/
def errEntry (n : String) : Except String Unit → Option (String × String)
  | .ok _ => Option.none
  | .error m => some (n, m)

/-- Whether a field rule succeeded. -/
def exceptOk : Except String Unit → Bool
  | .ok _ => true
  | .error _ => false

theorem validateGo_characterisation (data : List (String × PyVal)) :
    ∀ (fields : List FieldSpec) (acc : List (String × String)),
    validateGo data fields acc
      = acc ++ fields.filterMap (fun fs => errEntry fs.name (fs.rule (dictGet data fs.name)))
  | [], acc => by simp [validateGo]
  | fs :: rest, acc => by
    cases h : fs.rule (dictGet data fs.name) with
    | ok u =>
      simp [validateGo, h, errEntry, validateGo_characterisation data rest acc]
    | error m =>
      simp [validateGo, h, errEntry,
        validateGo_characterisation data rest (acc ++ [(fs.name, m)])]

theorem validateFields_characterisation (fields : List FieldSpec)
    (data : List (String × PyVal)) :
    validateFields fields data
      = fields.filterMap (fun fs => errEntry fs.name (fs.rule (dictGet data fs.name))) := by
  simpa [validateFields] using validateGo_characterisation data fields []

theorem errEntry_keys (data : List (String × PyVal)) (fields : List FieldSpec) :
    (fields.filterMap (fun fs => errEntry fs.name (fs.rule (dictGet data fs.name)))).map Prod.fst
      = (fields.filter (fun fs => !exceptOk (fs.rule (dictGet data fs.name)))).map FieldSpec.name := by
  induction fields with
  | nil => simp
  | cons fs rest ih =>
    cases h : fs.rule (dictGet data fs.name) with
    | ok u =>
      simp only [List.filterMap_cons, List.filter_cons, h, errEntry, exceptOk]
      simpa using ih
    | error m =>
      simp only [List.filterMap_cons, List.filter_cons, h, errEntry, exceptOk]
      simpa using ih

/-! ## Claim theorems -/

/-- C5: `check_auth` returns true iff the caller-supplied token string
exactly equals the expected digest: for the admin login the digest is the
512-bit hash (hexdigest abstracted as `f`) of the current hour `YYYYMMDDHH`
concatenated with the admin salt "42", and for any other login the hash of
(account or empty string) + login + the salt "Otus"; the comparison is
exact, case-sensitive string equality. Stated both for a string account and
for an absent (`None`) account. -/
theorem check_auth_token_iff_digest (f : String → String) (now a l t : String) :
    (check_auth f now (PyVal.str a) (PyVal.str l) (PyVal.str t) = true
      ↔ t = (if l = "admin" then f (now ++ "42") else f (a ++ l ++ "Otus")))
    ∧ (check_auth f now PyVal.none (PyVal.str l) (PyVal.str t) = true
      ↔ t = (if l = "admin" then f (now ++ "42") else f ("" ++ l ++ "Otus"))) := by
  constructor <;>
  · simp only [check_auth, is_admin, PyVal.eqStr, accountOrEmpty, loginStr,
      ADMIN_LOGIN, ADMIN_SALT, SALT]
    by_cases hl : l = "admin" <;> simp [hl]

/-- C4: on a store whose `_client` is `None` (as a newly constructed `Store`
is, and as every one of these operations leaves it), `get` raises
`AttributeError`, `cache_get` returns `None` and `cache_set` is a no-op,
all without a single attempt or connection: the argument expression
`self._client.get` is evaluated while `_client is None`, before `_execute`
(and therefore `_connect`) can run, so the lazy connection is never
established by any of the three public operations. -/
theorem store_none_client_never_connects (s : Store) (env : Nat → Attempt)
    (k v : String) (t : Nat) (h : s.client = Option.none) :
    (s.get env k).1 = Except.error PyExc.attributeError
    ∧ (s.cache_get env k).1 = Option.none
    ∧ (s.cache_set env k v t).1 = Except.ok ()
    ∧ (s.get env k).2.attempts = 0 ∧ (s.get env k).2.connects = 0
    ∧ (s.get env k).2.client = Option.none
    ∧ (s.cache_get env k).2.attempts = 0 ∧ (s.cache_get env k).2.connects = 0
    ∧ (s.cache_get env k).2.client = Option.none
    ∧ (s.cache_set env k v t).2.attempts = 0 ∧ (s.cache_set env k v t).2.connects = 0
    ∧ (s.cache_set env k v t).2.client = Option.none := by
  simp [Store.get, Store.cache_get, Store.cache_set, Store.rawOp, h]

theorem store_none_client_never_connects_witness :
    Store.init.client = Option.none
    ∧ (Store.init.get (fun _ => Attempt.transport) "i:1").1
        = Except.error PyExc.attributeError
    ∧ (Store.init.cache_get (fun _ => Attempt.transport) "uid:x").1 = Option.none :=
  ⟨rfl,
   (store_none_client_never_connects Store.init (fun _ => Attempt.transport)
      "i:1" "v" 0 rfl).1,
   (store_none_client_never_connects Store.init (fun _ => Attempt.transport)
      "uid:x" "v" 0 rfl).2.1⟩

/-- C10: whenever the underlying operation (argument evaluation plus the
retrying `_execute`) raises any exception `e`, `cache_get` returns `None`
and `cache_set` still returns normally — cache unavailability never
surfaces to the caller — whereas `get` catches nothing and propagates
exactly that exception. -/
theorem store_error_shaping (s : Store) (env : Nat → Attempt) (k v : String)
    (t : Nat) (e : PyExc) (h : (s.rawOp env).result = Except.error e) :
    (s.cache_get env k).1 = Option.none
    ∧ (s.cache_set env k v t).1 = Except.ok ()
    ∧ (s.get env k).1 = Except.error e := by
  simp [Store.cache_get, Store.cache_set, Store.get, h]

theorem store_error_shaping_witness :
    (Store.init.rawOp (fun _ => Attempt.transport)).result
        = Except.error PyExc.attributeError
    ∧ (Store.init.cache_get (fun _ => Attempt.transport) "k").1 = Option.none
    ∧ (Store.init.cache_set (fun _ => Attempt.transport) "k" "v" 3600).1 = Except.ok ()
    ∧ (Store.init.get (fun _ => Attempt.transport) "k").1
        = Except.error PyExc.attributeError :=
  ⟨rfl,
   (store_error_shaping Store.init (fun _ => Attempt.transport) "k" "v" 3600
      PyExc.attributeError rfl).1,
   (store_error_shaping Store.init (fun _ => Attempt.transport) "k" "v" 3600
      PyExc.attributeError rfl).2.1,
   (store_error_shaping Store.init (fun _ => Attempt.transport) "k" "v" 3600
      PyExc.attributeError rfl).2.2⟩

theorem executeLoop_all_transport (env : Nat → Attempt)
    (h : ∀ i, env i = Attempt.transport) (fuel : Nat) :
    ∀ (i : Nat) (c : Option RedisClient) (sl cn : Nat),
    (executeLoop env i fuel c sl cn).result = Except.error PyExc.runtimeErrorNoActive
    ∧ (executeLoop env i fuel c sl cn).attempts = i + fuel
    ∧ (executeLoop env i fuel c sl cn).sleeps = sl + fuel := by
  induction fuel with
  | zero => intro i c sl cn; simp [executeLoop]
  | succ n ih =>
    intro i c sl cn
    have hrec := ih (i + 1) Option.none (sl + 1) (cn + (connectIfNone c).2)
    simp only [executeLoop, h i] at hrec ⊢
    refine ⟨hrec.1, ?_, ?_⟩
    · rw [hrec.2.1]; omega
    · rw [hrec.2.2]; omega

/-- C3: when every attempt of one `_execute` call fails with a transport
error, the operation is attempted exactly `retries` times (default 3) with a
0.1-second sleep after each failed attempt — but after exhausting the
retries the caller does NOT receive the underlying transport error: the bare
`raise` on store.py line 45 runs outside any active `except` block, so a
`RuntimeError("No active exception to re-raise")` propagates instead. This
settles the claim's last clause against the code. -/
theorem execute_exhausted_raises_runtime_error (s : Store) (env : Nat → Attempt)
    (h : ∀ i, env i = Attempt.transport) :
    (s.execute env).result = Except.error PyExc.runtimeErrorNoActive
    ∧ (s.execute env).result ≠ Except.error PyExc.transportError
    ∧ (s.execute env).attempts = s.retries
    ∧ (s.execute env).sleeps = s.retries := by
  have hrec := executeLoop_all_transport env h s.retries 0 s.client 0 0
  unfold Store.execute
  refine ⟨hrec.1, ?_, by simpa using hrec.2.1, by simpa using hrec.2.2⟩
  rw [hrec.1]
  intro hcontra
  exact PyExc.noConfusion (Except.error.inj hcontra)

theorem execute_exhausted_raises_runtime_error_witness :
    ((Store.init.execute (fun _ => Attempt.transport)).result
        = Except.error PyExc.runtimeErrorNoActive
      ∧ (Store.init.execute (fun _ => Attempt.transport)).result
        ≠ Except.error PyExc.transportError
      ∧ (Store.init.execute (fun _ => Attempt.transport)).attempts = Store.init.retries
      ∧ (Store.init.execute (fun _ => Attempt.transport)).sleeps = Store.init.retries) :=
  execute_exhausted_raises_runtime_error Store.init (fun _ => Attempt.transport)
    (fun _ => rfl)

theorem assocLookup_cons_self (l : List (String × Rat)) (k : String) (v : Rat) :
    assocLookup ((k, v) :: l) k = some v := by
  simp [assocLookup]

/-- C6: on a cache miss — the store's cache lookup under the key
`"uid:" + md5hex(first_name + last_name + phone + birthday_as_YYYYMMDD)`
(each absent component defaulted to the empty string) returns no value —
`get_score` returns the sum of 1.5 for a phone, 1.5 for an email, 1.5 for
birthday together with gender, and 0.5 for first and last name together
("present" is Python truthiness: the claim itself identifies an empty
string with absence, and gender counts by `is not None`), and that sum is
written to the cache under the same key with a 3600-second expiry in the
returned store state. -/
theorem get_score_cache_miss (σ : Type) (ops : StoreOps σ)
    (md5hex : String → String) (st st1 : σ)
    (phone email first_name last_name : Option String)
    (birthday : Option Date) (gender : Option Int)
    (h : ops.cacheGetOp st
        ("uid:" ++ md5hex ((first_name.getD "") ++ (last_name.getD "")
          ++ (phone.getD "") ++ birthdayYmd birthday))
      = (Option.none, st1)) :
    get_score σ ops md5hex st phone email birthday gender first_name last_name
      = ((if strTruthy phone then (1.5 : Rat) else 0)
          + (if strTruthy email then (1.5 : Rat) else 0)
          + (if birthday.isSome && gender.isSome then (1.5 : Rat) else 0)
          + (if strTruthy first_name && strTruthy last_name then (0.5 : Rat) else 0),
         ops.cacheSetOp st1
           ("uid:" ++ md5hex ((first_name.getD "") ++ (last_name.getD "")
             ++ (phone.getD "") ++ birthdayYmd birthday))
           ((if strTruthy phone then (1.5 : Rat) else 0)
             + (if strTruthy email then (1.5 : Rat) else 0)
             + (if birthday.isSome && gender.isSome then (1.5 : Rat) else 0)
             + (if strTruthy first_name && strTruthy last_name then (0.5 : Rat) else 0))
           3600) := by
  have h3600 : (60 * 60 : Nat) = 3600 := rfl
  unfold get_score scoreKey
  simp only [h, h3600, zero_add]

theorem get_score_cache_miss_witness :
    countOps.cacheGetOp (CountStore.mk [] 0 0) "uid:79175002040"
        = (Option.none, CountStore.mk [] 1 0)
    ∧ get_score CountStore countOps (fun s => s) (CountStore.mk [] 0 0)
        (some "79175002040") (some "a@b.c") Option.none Option.none
        Option.none Option.none
      = ((1.5 : Rat) + 1.5 + 0 + 0,
         countOps.cacheSetOp (CountStore.mk [] 1 0) "uid:79175002040"
           ((1.5 : Rat) + 1.5 + 0 + 0) 3600) :=
  ⟨rfl,
   get_score_cache_miss CountStore countOps (fun s => s)
     (CountStore.mk [] 0 0) (CountStore.mk [] 1 0)
     (some "79175002040") (some "a@b.c") Option.none Option.none
     Option.none Option.none rfl⟩

/-- C7: against a store that persists the cache write (the instrumented
model store), two `get_score` calls with identical inputs return the
identical score; each call queries the store for the cache key exactly once
(two queries total), and the second call performs no cache write and leaves
the entries untouched — it returns the cached value without recomputation;
the first call writes at most once. -/
theorem get_score_idempotent (md5hex : String → String) (st : CountStore)
    (phone email : Option String) (birthday : Option Date) (gender : Option Int)
    (first_name last_name : Option String) :
    (get_score CountStore countOps md5hex
        (get_score CountStore countOps md5hex st phone email birthday gender
          first_name last_name).2
        phone email birthday gender first_name last_name).1
      = (get_score CountStore countOps md5hex st phone email birthday gender
          first_name last_name).1
    ∧ (get_score CountStore countOps md5hex st phone email birthday gender
        first_name last_name).2.gets = st.gets + 1
    ∧ (get_score CountStore countOps md5hex
        (get_score CountStore countOps md5hex st phone email birthday gender
          first_name last_name).2
        phone email birthday gender first_name last_name).2.gets = st.gets + 2
    ∧ (get_score CountStore countOps md5hex st phone email birthday gender
        first_name last_name).2.sets ≤ st.sets + 1
    ∧ (get_score CountStore countOps md5hex
        (get_score CountStore countOps md5hex st phone email birthday gender
          first_name last_name).2
        phone email birthday gender first_name last_name).2.sets
      = (get_score CountStore countOps md5hex st phone email birthday gender
          first_name last_name).2.sets
    ∧ (get_score CountStore countOps md5hex
        (get_score CountStore countOps md5hex st phone email birthday gender
          first_name last_name).2
        phone email birthday gender first_name last_name).2.entries
      = (get_score CountStore countOps md5hex st phone email birthday gender
          first_name last_name).2.entries := by
  cases h : assocLookup st.entries (scoreKey md5hex phone first_name last_name birthday) with
  | none =>
    simp [get_score, countOps, h, assocLookup_cons_self]
  | some v =>
    simp [get_score, countOps, h]

/-- Helper: the happy path of the `clients_interests` branch reduces to the
interests comprehension over the validated client id list. -/
theorem method_handler_clients_interests_branch (σ : Type)
    (scoreFn : σ → PyVal → PyVal → PyVal → PyVal → PyVal → PyVal → Rat × σ)
    (interestsFn : σ → Int → Option (List String) × σ)
    (f : String → String) (now : String) (today : Date)
    (req body args : List (String × PyVal)) (xs : List PyVal) (st : σ)
    (hb : dictGet req "body" = PyVal.dict body)
    (hvalid : validateFields methodRequestFields body = [])
    (hauth : check_auth f now (dictGet body "account") (dictGet body "login")
      (dictGet body "token") = true)
    (hmethod : dictGet body "method" = PyVal.str "clients_interests")
    (hargs : dictGet body "arguments" = PyVal.dict args)
    (hinner : validateFields clientsInterestsFields args = [])
    (hcids : dictGet args "client_ids" = PyVal.list xs) :
    method_handler σ scoreFn interestsFn f now today (PyVal.dict req) st
      = (match runInterests σ interestsFn st xs with
         | (.ok pairs, st') => (.ok (.interestsMap pairs, OK), st')
         | (.error e, st') => (.error e, st')) := by
  simp [method_handler, hb, hvalid, hauth, hmethod, hargs, hinner, hcids, PyVal.eqStr]

/-- C2: over a store containing `i:42 -> ["cars","music"]` (JSON-encoded)
and no key `i:404`, a validated `clients_interests` call with
`client_ids = [42, 404]` returns `{"42": ["cars","music"], "404": []}` with
status 200, each client id fetched from the store via the interests
lookup. -/
theorem clients_interests_round_trip (f : String → String) (now : String)
    (today : Date) (t : String)
    (hauth : check_auth f now (PyVal.str "horns&hoofs") (PyVal.str "h&f")
      (PyVal.str t) = true) :
    method_handler Unit trivialScoreFn roundTripInterestsFn f now today
      (PyVal.dict [("body", PyVal.dict
        [("account", PyVal.str "horns&hoofs"), ("login", PyVal.str "h&f"),
         ("token", PyVal.str t),
         ("arguments", PyVal.dict
           [("client_ids", PyVal.list [PyVal.int 42, PyVal.int 404])]),
         ("method", PyVal.str "clients_interests")])]) ()
      = (Except.ok (Resp.interestsMap [("42", ["cars", "music"]), ("404", [])], OK),
         ()) := by
  rw [method_handler_clients_interests_branch Unit trivialScoreFn
    roundTripInterestsFn f now today
    [("body", PyVal.dict
      [("account", PyVal.str "horns&hoofs"), ("login", PyVal.str "h&f"),
       ("token", PyVal.str t),
       ("arguments", PyVal.dict
         [("client_ids", PyVal.list [PyVal.int 42, PyVal.int 404])]),
       ("method", PyVal.str "clients_interests")])]
    [("account", PyVal.str "horns&hoofs"), ("login", PyVal.str "h&f"),
     ("token", PyVal.str t),
     ("arguments", PyVal.dict
       [("client_ids", PyVal.list [PyVal.int 42, PyVal.int 404])]),
     ("method", PyVal.str "clients_interests")]
    [("client_ids", PyVal.list [PyVal.int 42, PyVal.int 404])]
    [PyVal.int 42, PyVal.int 404] () rfl rfl hauth rfl rfl rfl rfl]
  rfl

theorem clients_interests_round_trip_witness :
    method_handler Unit trivialScoreFn roundTripInterestsFn
      (fun _ => "T") "2024010112" (Date.mk 2024 1 1)
      (PyVal.dict [("body", PyVal.dict
        [("account", PyVal.str "horns&hoofs"), ("login", PyVal.str "h&f"),
         ("token", PyVal.str "T"),
         ("arguments", PyVal.dict
           [("client_ids", PyVal.list [PyVal.int 42, PyVal.int 404])]),
         ("method", PyVal.str "clients_interests")])]) ()
      = (Except.ok (Resp.interestsMap [("42", ["cars", "music"]), ("404", [])], OK),
         ()) :=
  clients_interests_round_trip (fun _ => "T") "2024010112" (Date.mk 2024 1 1) "T"
    (by decide)

/-- C1: every non-admin `online_score` call whose envelope passes the outer
schema, whose token passes authentication, and whose arguments pass the
inner schema and the cross-field pair rule makes `method_handler` compute
the score via the scoring function on the validated argument values and
return the payload `{"score": value}` with status 200, threading the store
state through the scoring call. Stated for an arbitrary scoring function
because api.py imports it from `scoring.core`, which is not among the
sources; `scoring/service.py`'s embedded `get_score` is one instance. -/
theorem online_score_non_admin_ok (σ : Type)
    (scoreFn : σ → PyVal → PyVal → PyVal → PyVal → PyVal → PyVal → Rat × σ)
    (interestsFn : σ → Int → Option (List String) × σ)
    (f : String → String) (now : String) (today : Date)
    (req body args : List (String × PyVal)) (st : σ)
    (hb : dictGet req "body" = PyVal.dict body)
    (hvalid : validateFields methodRequestFields body = [])
    (hauth : check_auth f now (dictGet body "account") (dictGet body "login")
      (dictGet body "token") = true)
    (hmethod : dictGet body "method" = PyVal.str "online_score")
    (hargs : dictGet body "arguments" = PyVal.dict args)
    (hinner : validateFields (onlineScoreFields today) args = [])
    (hpair : (pairFilled (dictGet args "phone") (dictGet args "email")
        || pairFilled (dictGet args "first_name") (dictGet args "last_name")
        || pairFilled (dictGet args "gender") (dictGet args "birthday")) = true)
    (hadmin : is_admin (dictGet body "login") = false) :
    method_handler σ scoreFn interestsFn f now today (PyVal.dict req) st
      = (Except.ok (Resp.score
            (scoreFn st (dictGet args "phone") (dictGet args "email")
              (dictGet args "birthday") (dictGet args "gender")
              (dictGet args "first_name") (dictGet args "last_name")).1, OK),
         (scoreFn st (dictGet args "phone") (dictGet args "email")
            (dictGet args "birthday") (dictGet args "gender")
            (dictGet args "first_name") (dictGet args "last_name")).2) := by
  simp [method_handler, hb, hvalid, hauth, hmethod, hargs, hinner, hpair, hadmin,
    PyVal.eqStr]

theorem online_score_non_admin_ok_witness :
    method_handler Nat (fun st _ _ _ _ _ _ => (7, st + 1))
      (fun st _ => (some [], st)) (fun _ => "T") "2024010112" (Date.mk 2024 1 1)
      (PyVal.dict [("body", PyVal.dict
        [("account", PyVal.str "acc"), ("login", PyVal.str "u"),
         ("token", PyVal.str "T"),
         ("arguments", PyVal.dict
           [("phone", PyVal.str "79175002040"), ("email", PyVal.str "a@b.c")]),
         ("method", PyVal.str "online_score")])]) 0
      = (Except.ok (Resp.score 7, OK), 1) :=
  online_score_non_admin_ok Nat (fun st _ _ _ _ _ _ => (7, st + 1))
    (fun st _ => (some [], st)) (fun _ => "T") "2024010112" (Date.mk 2024 1 1)
    [("body", PyVal.dict
      [("account", PyVal.str "acc"), ("login", PyVal.str "u"),
       ("token", PyVal.str "T"),
       ("arguments", PyVal.dict
         [("phone", PyVal.str "79175002040"), ("email", PyVal.str "a@b.c")]),
       ("method", PyVal.str "online_score")])]
    [("account", PyVal.str "acc"), ("login", PyVal.str "u"),
     ("token", PyVal.str "T"),
     ("arguments", PyVal.dict
       [("phone", PyVal.str "79175002040"), ("email", PyVal.str "a@b.c")]),
     ("method", PyVal.str "online_score")]
    [("phone", PyVal.str "79175002040"), ("email", PyVal.str "a@b.c")] 0
    rfl (by decide) (by decide) rfl rfl (by decide) (by decide) (by decide)

/-- C8: every admin `online_score` call that passes envelope validation,
authentication, the inner schema and the cross-field rule returns the fixed
payload `{"score": 42}` with status 200 and performs no store operation:
the returned store state is the input state, for every scoring and
interests function whatsoever. -/
theorem online_score_admin_42_no_store (σ : Type)
    (scoreFn : σ → PyVal → PyVal → PyVal → PyVal → PyVal → PyVal → Rat × σ)
    (interestsFn : σ → Int → Option (List String) × σ)
    (f : String → String) (now : String) (today : Date)
    (req body args : List (String × PyVal)) (st : σ)
    (hb : dictGet req "body" = PyVal.dict body)
    (hvalid : validateFields methodRequestFields body = [])
    (hauth : check_auth f now (dictGet body "account") (dictGet body "login")
      (dictGet body "token") = true)
    (hmethod : dictGet body "method" = PyVal.str "online_score")
    (hargs : dictGet body "arguments" = PyVal.dict args)
    (hinner : validateFields (onlineScoreFields today) args = [])
    (hpair : (pairFilled (dictGet args "phone") (dictGet args "email")
        || pairFilled (dictGet args "first_name") (dictGet args "last_name")
        || pairFilled (dictGet args "gender") (dictGet args "birthday")) = true)
    (hadmin : is_admin (dictGet body "login") = true) :
    method_handler σ scoreFn interestsFn f now today (PyVal.dict req) st
      = (Except.ok (Resp.score 42, OK), st) := by
  simp [method_handler, hb, hvalid, hauth, hmethod, hargs, hinner, hpair, hadmin,
    PyVal.eqStr]

theorem online_score_admin_42_no_store_witness :
    method_handler Nat (fun st _ _ _ _ _ _ => (7, st + 1))
      (fun st _ => (some [], st)) (fun _ => "T") "2024010112" (Date.mk 2024 1 1)
      (PyVal.dict [("body", PyVal.dict
        [("account", PyVal.str "acc"), ("login", PyVal.str "admin"),
         ("token", PyVal.str "T"),
         ("arguments", PyVal.dict
           [("phone", PyVal.str "79175002040"), ("email", PyVal.str "a@b.c")]),
         ("method", PyVal.str "online_score")])]) 0
      = (Except.ok (Resp.score 42, OK), 0) :=
  online_score_admin_42_no_store Nat (fun st _ _ _ _ _ _ => (7, st + 1))
    (fun st _ => (some [], st)) (fun _ => "T") "2024010112" (Date.mk 2024 1 1)
    [("body", PyVal.dict
      [("account", PyVal.str "acc"), ("login", PyVal.str "admin"),
       ("token", PyVal.str "T"),
       ("arguments", PyVal.dict
         [("phone", PyVal.str "79175002040"), ("email", PyVal.str "a@b.c")]),
       ("method", PyVal.str "online_score")])]
    [("account", PyVal.str "acc"), ("login", PyVal.str "admin"),
     ("token", PyVal.str "T"),
     ("arguments", PyVal.dict
       [("phone", PyVal.str "79175002040"), ("email", PyVal.str "a@b.c")]),
     ("method", PyVal.str "online_score")]
    [("phone", PyVal.str "79175002040"), ("email", PyVal.str "a@b.c")] 0
    rfl (by decide) (by decide) rfl rfl (by decide) (by decide) (by decide)

/-- C9: validation runs every field's rule on the raw value looked up by
name, without short-circuiting across fields, records one `(name, message)`
entry per failing field, and returns true iff no errors were recorded;
consequently, when outer-schema validation fails, `method_handler` returns
status 422 with the non-empty error mapping whose keys are exactly the
names of the fields whose rule fails (invalid, or missing while
required). -/
theorem validate_all_fields_and_422 (fields : List FieldSpec)
    (data : List (String × PyVal)) (σ : Type)
    (scoreFn : σ → PyVal → PyVal → PyVal → PyVal → PyVal → PyVal → Rat × σ)
    (interestsFn : σ → Int → Option (List String) × σ)
    (f : String → String) (now : String) (today : Date)
    (req body : List (String × PyVal)) (st : σ)
    (hb : dictGet req "body" = PyVal.dict body)
    (hfail : validateFields methodRequestFields body ≠ []) :
    validateFields fields data
      = fields.filterMap (fun fs => errEntry fs.name (fs.rule (dictGet data fs.name)))
    ∧ (requestValidate fields data = true ↔ validateFields fields data = [])
    ∧ method_handler σ scoreFn interestsFn f now today (PyVal.dict req) st
      = (Except.ok (Resp.errMap (validateFields methodRequestFields body),
          INVALID_REQUEST), st)
    ∧ (validateFields methodRequestFields body).map Prod.fst
      = (methodRequestFields.filter
          (fun fs => !exceptOk (fs.rule (dictGet body fs.name)))).map FieldSpec.name := by
  have hne : (validateFields methodRequestFields body).isEmpty = false := by
    cases hv : validateFields methodRequestFields body with
    | nil => exact absurd hv hfail
    | cons a l => rfl
  refine ⟨validateFields_characterisation fields data, ?_, ?_, ?_⟩
  · simp [requestValidate, List.isEmpty_iff]
  · simp [method_handler, hb, hne]
  · rw [validateFields_characterisation]
    exact errEntry_keys body methodRequestFields

theorem validate_all_fields_and_422_witness :
    validateFields methodRequestFields [] ≠ []
    ∧ (validateFields methodRequestFields []
        = methodRequestFields.filterMap
            (fun fs => errEntry fs.name (fs.rule (dictGet [] fs.name)))
      ∧ (requestValidate methodRequestFields [] = true
          ↔ validateFields methodRequestFields [] = [])
      ∧ method_handler Unit trivialScoreFn roundTripInterestsFn (fun _ => "T")
          "2024010112" (Date.mk 2024 1 1)
          (PyVal.dict [("body", PyVal.dict [])]) ()
        = (Except.ok (Resp.errMap (validateFields methodRequestFields []),
            INVALID_REQUEST), ())
      ∧ (validateFields methodRequestFields []).map Prod.fst
        = (methodRequestFields.filter
            (fun fs => !exceptOk (fs.rule (dictGet [] fs.name)))).map FieldSpec.name) :=
  ⟨by decide,
   validate_all_fields_and_422 methodRequestFields [] Unit trivialScoreFn
     roundTripInterestsFn (fun _ => "T") "2024010112" (Date.mk 2024 1 1)
     [("body", PyVal.dict [])] [] () rfl (by decide)⟩
